import Mathlib

/-!
Shallow embedding of `scripts/update_fpl_data.py` (class `FPLDataUpdater`).

Modelling conventions:
* A row of the freshly fetched snapshot (`new_data` DataFrame) is a `NewPlayer`;
  only the columns that `detect_changes` and the record constructors read are
  kept.  A row of the persisted snapshot (`players_current` table) is a
  `CurrentPlayer`.
* Python floats are modelled as rationals `ℚ`; a column that may be null
  (`pd.notna` guard in the source) is an `Option ℚ`, and the source's
  `float(x) if pd.notna(x) else 0.0` coercion is `Option.getD · 0`.
* `datetime.now().isoformat()` is a `String` parameter `now` threaded through;
  each run uses one value for it.
* The Supabase backend is an explicit environment `Env`: each backend call the
  updater makes is a field holding either the call's result or the message of
  the exception it raises (`Except String`).
-/

/-- A row of the fetched snapshot, with the columns `detect_changes` reads. -/
structure NewPlayer where
  id : Int
  web_name : String
  position : String
  team_name : String
  now_cost : Int
  total_points : Int
  points_per_game : Option ℚ
  selected_by_percent : ℚ
  form : Option ℚ
deriving DecidableEq, Repr

/-- A row of the persisted `players_current` table, with the columns
`detect_changes` reads from `current`. -/
structure CurrentPlayer where
  id : Int
  now_cost : Int
  total_points : Int
  form : Option ℚ
deriving DecidableEq, Repr

/-- One dict appended to the `changes` list: the four `change_type` shapes
built in `detect_changes`, each with exactly the keys the source writes. -/
inductive ChangeRecord where
  | new_player (player_id : Int) (gameweek : Option Int)
      (web_name position team_name : String) (now_cost total_points : Int)
      (points_per_game selected_by_percent form : ℚ) (recorded_at : String)
  | price_change (player_id : Int) (gameweek : Option Int)
      (web_name : String) (now_cost : Int) (recorded_at : String)
  | points_update (player_id : Int) (gameweek : Option Int)
      (web_name : String) (total_points : Int) (recorded_at : String)
  | form_change (player_id : Int) (gameweek : Option Int)
      (web_name : String) (form : ℚ) (recorded_at : String)
deriving DecidableEq, Repr

/-- The `player_id` key present in every change dict. -/
def ChangeRecord.player_id : ChangeRecord → Int
  | .new_player i _ _ _ _ _ _ _ _ _ _ => i
  | .price_change i _ _ _ _ => i
  | .points_update i _ _ _ _ => i
  | .form_change i _ _ _ _ => i

/-- The `change_type` string stored in the dict. -/
def ChangeRecord.change_type : ChangeRecord → String
  | .new_player .. => "new_player"
  | .price_change .. => "price_change"
  | .points_update .. => "points_update"
  | .form_change .. => "form_change"

/-- The `recorded_at` timestamp of a change dict. -/
def ChangeRecord.recorded_at : ChangeRecord → String
  | .new_player _ _ _ _ _ _ _ _ _ _ t => t
  | .price_change _ _ _ _ t => t
  | .points_update _ _ _ _ t => t
  | .form_change _ _ _ _ t => t

/-- One dict appended to the `price_changes` list in `detect_changes`. -/
structure PriceChangeRecord where
  player_id : Int
  old_price : ℚ
  new_price : ℚ
  price_change : ℚ
  ownership_percent : ℚ
  gameweek : Option Int
  change_date : String
deriving DecidableEq, Repr

/-- The body of the `for _, new_player in new_data.iterrows()` loop of
`detect_changes` for one fetched row: the change dicts and price-change dicts
it appends, in append order.  `current_data[current_data['id'] == player_id]`
followed by `.iloc[0]` is the first row of `current_data` with that id. -/
def diff_player (current_data : List CurrentPlayer) (gameweek : Option Int)
    (now : String) (new_player : NewPlayer) :
    List ChangeRecord × List PriceChangeRecord :=
  let player_id := new_player.id
  match current_data.find? (fun c => c.id == player_id) with
  | none =>
      ([ChangeRecord.new_player player_id gameweek new_player.web_name
          new_player.position new_player.team_name new_player.now_cost
          new_player.total_points (new_player.points_per_game.getD 0)
          new_player.selected_by_percent (new_player.form.getD 0) now], [])
  | some current =>
      let old_price := current.now_cost
      let new_price := new_player.now_cost
      let price_part : List ChangeRecord × List PriceChangeRecord :=
        if old_price ≠ new_price then
          ([ChangeRecord.price_change player_id gameweek new_player.web_name
              new_price now],
           [⟨player_id, (old_price : ℚ) / 10, (new_price : ℚ) / 10,
              ((new_price : ℚ) - (old_price : ℚ)) / 10,
              new_player.selected_by_percent, gameweek, now⟩])
        else ([], [])
      let points_part : List ChangeRecord :=
        if current.total_points ≠ new_player.total_points then
          [ChangeRecord.points_update player_id gameweek new_player.web_name
            new_player.total_points now]
        else []
      let old_form := current.form.getD 0
      let new_form := new_player.form.getD 0
      let form_part : List ChangeRecord :=
        if |old_form - new_form| > 1/10 then
          [ChangeRecord.form_change player_id gameweek new_player.web_name
            new_form now]
        else []
      (price_part.1 ++ points_part ++ form_part, price_part.2)

/-- `FPLDataUpdater.detect_changes`: returns `([], [])` when the previous
snapshot is empty, otherwise loops over the fetched rows accumulating the
`changes` and `price_changes` lists. -/
def detect_changes (new_data : List NewPlayer) (current_data : List CurrentPlayer)
    (gameweek : Option Int) (now : String) :
    List ChangeRecord × List PriceChangeRecord :=
  if current_data.isEmpty then ([], [])
  else
    new_data.foldl
      (fun acc new_player =>
        let d := diff_player current_data gameweek now new_player
        (acc.1 ++ d.1, acc.2 ++ d.2))
      ([], [])

/-- One insert call `store_changes` issues to the backend, with the rows it
sends. -/
inductive BackendCall where
  | insertHistory (records : List ChangeRecord)
  | insertPrices (records : List PriceChangeRecord)
deriving DecidableEq

/-- One successfully executed `update` of the `data_updates` audit row, with
the columns `log_update_complete` writes. -/
structure AuditWrite where
  update_id : Int
  status : String
  players_updated : Nat
  changes_detected : Nat
  error_message : Option String
deriving DecidableEq

/-- The Supabase backend and the clock, as the updater observes them during
one run.  Each field is the outcome of the corresponding backend call: `.ok`
with the data the call returns, or `.error` with the raised exception's
message. -/
structure Env where
  /-- `log_update_start`'s insert into `data_updates`: the ids in
  `result.data` on success (`result.data[0]['id']` is its head), or the
  exception. -/
  startResult : Except String (List Int)
  /-- `fetch_fpl_data`: the fetched rows and current gameweek, or the
  exception. -/
  fetchResult : Except String (List NewPlayer × Option Int)
  /-- `players_current` select in `get_current_database_data`: the stored
  rows (`[]` models `result.data` empty), or the exception. -/
  currentResult : Except String (List CurrentPlayer)
  /-- `player_history` insert in `store_changes`: the number of rows in
  `result.data`, or the exception. -/
  historyInsert : Except String Nat
  /-- `price_changes` insert in `store_changes`: the number of rows in
  `result.data`, or the exception. -/
  priceInsert : Except String Nat
  /-- `players_current` upsert in `update_current_data`: the number of rows
  in `result.data`, or the exception. -/
  upsertResult : Except String Nat
  /-- the `data_updates` update in `log_update_complete`: unit, or the
  exception (which `log_update_complete` swallows). -/
  completeResult : Except String Unit
  /-- `datetime.now().isoformat()` during the run. -/
  now : String

/-- The `self.update_id` held after `log_update_start`: `result.data[0]['id']`
when the insert succeeds and returns data, `None` when the data is empty or
the insert raises (the exception is swallowed). -/
def start_id (env : Env) : Option Int :=
  match env.startResult with
  | .error _ => none
  | .ok ids => ids.head?

/-- `FPLDataUpdater.get_current_database_data`: the stored rows, with any
backend exception swallowed into an empty snapshot. -/
def get_current_database_data (env : Env) : List CurrentPlayer :=
  match env.currentResult with
  | .error _ => []
  | .ok rows => rows

/-- `FPLDataUpdater.store_changes`: inserts the `changes` list when non-empty,
then the `price_changes` list when non-empty; returns the total stored count
or the first exception (re-raised after logging).  The second component is the
sequence of insert calls actually issued. -/
def store_changes (env : Env) (changes : List ChangeRecord)
    (price_changes : List PriceChangeRecord) :
    Except String Nat × List BackendCall :=
  if changes.isEmpty then
    if price_changes.isEmpty then (.ok 0, [])
    else
      match env.priceInsert with
      | .error e => (.error e, [.insertPrices price_changes])
      | .ok stored_price_changes =>
          (.ok (0 + stored_price_changes), [.insertPrices price_changes])
  else
    match env.historyInsert with
    | .error e => (.error e, [.insertHistory changes])
    | .ok stored_changes =>
        if price_changes.isEmpty then
          (.ok (stored_changes + 0), [.insertHistory changes])
        else
          match env.priceInsert with
          | .error e =>
              (.error e, [.insertHistory changes, .insertPrices price_changes])
          | .ok stored_price_changes =>
              (.ok (stored_changes + stored_price_changes),
               [.insertHistory changes, .insertPrices price_changes])

/-- `FPLDataUpdater.log_update_complete`: returns early when
`self.update_id` is falsy (`None`, or the integer `0`), otherwise updates the
audit row; a backend exception is swallowed, so no write lands. -/
def log_update_complete (env : Env) (update_id : Option Int) (status : String)
    (players_updated changes_detected : Nat) (error_message : Option String) :
    List AuditWrite :=
  match update_id with
  | none => []
  | some i =>
      if i = 0 then []
      else
        match env.completeResult with
        | .error _ => []
        | .ok _ => [⟨i, status, players_updated, changes_detected, error_message⟩]

/-- `FPLDataUpdater.run_update`: start audit, fetch, read previous snapshot,
diff, store changes, upsert snapshot, complete audit; any exception in the
`try` body is logged as a `failed` completion and re-raised.  Returns the
outcome (counts on success, the exception's message on failure) and the audit
writes that landed. -/
def run_update (env : Env) : Except String (Nat × Nat) × List AuditWrite :=
  let update_id := start_id env
  match env.fetchResult with
  | .error e => (.error e, log_update_complete env update_id "failed" 0 0 (some e))
  | .ok (new_data, gameweek) =>
      let current_data := get_current_database_data env
      let dp := detect_changes new_data current_data gameweek env.now
      match (store_changes env dp.1 dp.2).1 with
      | .error e =>
          (.error e, log_update_complete env update_id "failed" 0 0 (some e))
      | .ok changes_stored =>
          match env.upsertResult with
          | .error e =>
              (.error e, log_update_complete env update_id "failed" 0 0 (some e))
          | .ok players_updated =>
              (.ok (players_updated, changes_stored),
               log_update_complete env update_id "success" players_updated
                 changes_stored none)

/-! ### Structural lemmas about the differ -/

lemma diff_player_fst_player_id (cd : List CurrentPlayer) (gw : Option Int)
    (now : String) (p : NewPlayer) :
    ∀ r ∈ (diff_player cd gw now p).1, r.player_id = p.id := by
  intro r hr
  unfold diff_player at hr
  dsimp only at hr
  cases hfind : cd.find? (fun c => c.id == p.id) with
  | none =>
      rw [hfind] at hr
      simp only [List.mem_singleton] at hr
      subst hr; rfl
  | some current =>
      rw [hfind] at hr
      dsimp only at hr
      simp only [List.mem_append] at hr
      rcases hr with (hr | hr) | hr <;> split_ifs at hr <;>
        simp only [List.mem_singleton, List.not_mem_nil] at hr <;>
        first
          | exact absurd hr (by simp)
          | (subst hr; rfl)

lemma diff_player_snd_player_id (cd : List CurrentPlayer) (gw : Option Int)
    (now : String) (p : NewPlayer) :
    ∀ r ∈ (diff_player cd gw now p).2, r.player_id = p.id := by
  intro r hr
  unfold diff_player at hr
  dsimp only at hr
  cases hfind : cd.find? (fun c => c.id == p.id) with
  | none =>
      rw [hfind] at hr
      simp at hr
  | some current =>
      rw [hfind] at hr
      dsimp only at hr
      split_ifs at hr <;>
        simp only [List.mem_singleton, List.not_mem_nil] at hr
      subst hr; rfl

lemma foldl_pair_append {α β γ : Type} (f : α → List β × List γ) :
    ∀ (nd : List α) (acc : List β × List γ),
      nd.foldl (fun acc p => (acc.1 ++ (f p).1, acc.2 ++ (f p).2)) acc =
        (acc.1 ++ nd.flatMap (fun p => (f p).1),
         acc.2 ++ nd.flatMap (fun p => (f p).2)) := by
  intro nd
  induction nd with
  | nil => intro acc; simp
  | cons a tl ih =>
      intro acc
      simp only [List.foldl_cons, List.flatMap_cons, ih, List.append_assoc]

lemma detect_changes_fst_eq (nd : List NewPlayer) (cd : List CurrentPlayer)
    (gw : Option Int) (now : String) (hne : cd ≠ []) :
    (detect_changes nd cd gw now).1 =
      nd.flatMap (fun p => (diff_player cd gw now p).1) := by
  unfold detect_changes
  rw [if_neg (by simpa using hne), foldl_pair_append]
  simp

lemma detect_changes_snd_eq (nd : List NewPlayer) (cd : List CurrentPlayer)
    (gw : Option Int) (now : String) (hne : cd ≠ []) :
    (detect_changes nd cd gw now).2 =
      nd.flatMap (fun p => (diff_player cd gw now p).2) := by
  unfold detect_changes
  rw [if_neg (by simpa using hne), foldl_pair_append]
  simp

lemma flatMap_filter_key {α β : Type} (key : α → Int) (g : β → Int)
    (f : α → List β) (h : ∀ q, ∀ r ∈ f q, g r = key q) :
    ∀ (nd : List α) (p : α), (nd.map key).Nodup → p ∈ nd →
      (nd.flatMap f).filter (fun r => g r == key p) = f p := by
  intro nd
  induction nd with
  | nil => intro p _ hp; simp at hp
  | cons a tl ih =>
      intro p hnd hp
      rw [List.map_cons, List.nodup_cons] at hnd
      obtain ⟨ha, htl⟩ := hnd
      rw [List.flatMap_cons, List.filter_append]
      rcases List.mem_cons.mp hp with rfl | hp
      · have h1 : (f p).filter (fun r => g r == key p) = f p :=
          List.filter_eq_self.mpr (fun r hr => by
            simpa using h p r hr)
        have h2 : (tl.flatMap f).filter (fun r => g r == key p) = [] := by
          rw [List.filter_eq_nil_iff]
          intro r hr
          obtain ⟨q, hq, hrq⟩ := List.mem_flatMap.mp hr
          have := h q r hrq
          simp only [this, beq_iff_eq]
          intro hkey
          exact ha (hkey ▸ List.mem_map_of_mem key hq)
        rw [h1, h2, List.append_nil]
      · have hkey : key a ≠ key p := fun hk =>
          ha (hk ▸ List.mem_map_of_mem key hp)
        have h1 : (f a).filter (fun r => g r == key p) = [] := by
          rw [List.filter_eq_nil_iff]
          intro r hr
          have := h a r hr
          simp only [this, beq_iff_eq]
          exact hkey
        rw [h1, ih p htl hp, List.nil_append]

/-- For a new-snapshot row with a unique id, the change records the whole run
emits for that id are exactly the loop-body records for that row. -/
lemma detect_changes_fst_filter (nd : List NewPlayer) (cd : List CurrentPlayer)
    (gw : Option Int) (now : String) (p : NewPlayer) (hne : cd ≠ [])
    (hnd : (nd.map NewPlayer.id).Nodup) (hp : p ∈ nd) :
    (detect_changes nd cd gw now).1.filter
        (fun r => r.player_id == p.id) =
      (diff_player cd gw now p).1 := by
  rw [detect_changes_fst_eq nd cd gw now hne]
  exact flatMap_filter_key NewPlayer.id ChangeRecord.player_id _
    (fun q => diff_player_fst_player_id cd gw now q) nd p hnd hp

/-- For a new-snapshot row with a unique id, the price-change records the
whole run emits for that id are exactly the loop-body records for that row. -/
lemma detect_changes_snd_filter (nd : List NewPlayer) (cd : List CurrentPlayer)
    (gw : Option Int) (now : String) (p : NewPlayer) (hne : cd ≠ [])
    (hnd : (nd.map NewPlayer.id).Nodup) (hp : p ∈ nd) :
    (detect_changes nd cd gw now).2.filter
        (fun r => r.player_id == p.id) =
      (diff_player cd gw now p).2 := by
  rw [detect_changes_snd_eq nd cd gw now hne]
  exact flatMap_filter_key NewPlayer.id PriceChangeRecord.player_id _
    (fun q => diff_player_snd_player_id cd gw now q) nd p hnd hp

lemma find_some_ne_nil {cd : List CurrentPlayer} {f : CurrentPlayer → Bool}
    {c : CurrentPlayer} (hfind : cd.find? f = some c) : cd ≠ [] := by
  rintro rfl
  simp at hfind

lemma diff_player_none (cd : List CurrentPlayer) (gw : Option Int)
    (now : String) (p : NewPlayer)
    (hfind : cd.find? (fun c => c.id == p.id) = none) :
    diff_player cd gw now p =
      ([ChangeRecord.new_player p.id gw p.web_name p.position p.team_name
          p.now_cost p.total_points (p.points_per_game.getD 0)
          p.selected_by_percent (p.form.getD 0) now], []) := by
  unfold diff_player
  dsimp only
  rw [hfind]

lemma diff_player_some (cd : List CurrentPlayer) (gw : Option Int)
    (now : String) (p : NewPlayer) (c : CurrentPlayer)
    (hfind : cd.find? (fun cur => cur.id == p.id) = some c) :
    diff_player cd gw now p =
      ((if c.now_cost ≠ p.now_cost then
          [ChangeRecord.price_change p.id gw p.web_name p.now_cost now]
        else []) ++
       (if c.total_points ≠ p.total_points then
          [ChangeRecord.points_update p.id gw p.web_name p.total_points now]
        else []) ++
       (if |c.form.getD 0 - p.form.getD 0| > 1/10 then
          [ChangeRecord.form_change p.id gw p.web_name (p.form.getD 0) now]
        else []),
       if c.now_cost ≠ p.now_cost then
         [⟨p.id, (c.now_cost : ℚ) / 10, (p.now_cost : ℚ) / 10,
            ((p.now_cost : ℚ) - (c.now_cost : ℚ)) / 10,
            p.selected_by_percent, gw, now⟩]
       else []) := by
  unfold diff_player
  dsimp only
  rw [hfind]
  dsimp only
  split_ifs <;> rfl

/-! ### Claim theorems -/

/-- C1, as written, is false of the code: with the previous snapshot empty and
the new snapshot `[{id: 2, ...}]`, `detect_changes` returns `([], [])`, so it
does not emit exactly one `new_player` change record for id 2 (it emits
none). -/
theorem claim_C1_counterexample :
    detect_changes [(⟨2, "Saka", "MID", "ARS", 50, 10, some 1, 5, some 3⟩ : NewPlayer)]
        [] (some 1) "t" = ([], []) ∧
    ¬ ((detect_changes [(⟨2, "Saka", "MID", "ARS", 50, 10, some 1, 5, some 3⟩ : NewPlayer)]
          [] (some 1) "t").1.countP
        (fun r => r.change_type == "new_player" && r.player_id == 2) = 1) := by
  refine ⟨rfl, ?_⟩
  simp [detect_changes]

/-- C1 (amended): when the previous snapshot is empty, the differ emits zero
change records and zero price-change records, whatever the new snapshot
holds; no `new_player` records are produced on an initial load. -/
theorem claim_C1_empty_previous (new_data : List NewPlayer) (gameweek : Option Int)
    (now : String) :
    detect_changes new_data [] gameweek now = ([], []) := rfl

/-- C4: an entity of the new snapshot absent from a non-empty previous
snapshot yields exactly one `new_player` change record carrying its full
attribute set and the run's gameweek, and zero price-change records. -/
theorem claim_C4_new_entity (nd : List NewPlayer) (cd : List CurrentPlayer)
    (gw : Option Int) (now : String) (p : NewPlayer) (hne : cd ≠ [])
    (hnd : (nd.map NewPlayer.id).Nodup) (hp : p ∈ nd)
    (hfind : cd.find? (fun cur => cur.id == p.id) = none) :
    (detect_changes nd cd gw now).1.filter (fun r => r.player_id == p.id) =
      [ChangeRecord.new_player p.id gw p.web_name p.position p.team_name
        p.now_cost p.total_points (p.points_per_game.getD 0)
        p.selected_by_percent (p.form.getD 0) now] ∧
    (detect_changes nd cd gw now).2.filter (fun r => r.player_id == p.id) = [] := by
  refine ⟨?_, ?_⟩
  · rw [detect_changes_fst_filter nd cd gw now p hne hnd hp,
        diff_player_none cd gw now p hfind]
  · rw [detect_changes_snd_filter nd cd gw now p hne hnd hp,
        diff_player_none cd gw now p hfind]

/-- C4 witness: a concrete run with previous `[{id: 1}]` and new
`[{id: 2}]`. -/
theorem claim_C4_witness :
    (detect_changes [(⟨2, "Saka", "MID", "ARS", 55, 12, some 2, 7, some 4⟩ : NewPlayer)]
        [(⟨1, 50, 10, some 3⟩ : CurrentPlayer)] (some 7) "t").1.filter
        (fun r => r.player_id == (2 : Int)) =
      [ChangeRecord.new_player 2 (some 7) "Saka" "MID" "ARS" 55 12 2 7 4 "t"] ∧
    (detect_changes [(⟨2, "Saka", "MID", "ARS", 55, 12, some 2, 7, some 4⟩ : NewPlayer)]
        [(⟨1, 50, 10, some 3⟩ : CurrentPlayer)] (some 7) "t").2.filter
        (fun r => r.player_id == (2 : Int)) = [] :=
  claim_C4_new_entity [(⟨2, "Saka", "MID", "ARS", 55, 12, some 2, 7, some 4⟩ : NewPlayer)]
    [(⟨1, 50, 10, some 3⟩ : CurrentPlayer)] (some 7) "t"
    (⟨2, "Saka", "MID", "ARS", 55, 12, some 2, 7, some 4⟩ : NewPlayer)
    (List.cons_ne_nil _ _) (by simp) (List.mem_singleton.mpr rfl) rfl

/-- C5: an entity present in both snapshots whose price, cumulative points
and (null-coerced) form are unchanged contributes zero change records and
zero price-change records. -/
theorem claim_C5_identical_no_records (nd : List NewPlayer)
    (cd : List CurrentPlayer) (gw : Option Int) (now : String) (p : NewPlayer)
    (c : CurrentPlayer) (hnd : (nd.map NewPlayer.id).Nodup) (hp : p ∈ nd)
    (hfind : cd.find? (fun cur => cur.id == p.id) = some c)
    (hcost : c.now_cost = p.now_cost) (hpts : c.total_points = p.total_points)
    (hform : c.form.getD 0 = p.form.getD 0) :
    (detect_changes nd cd gw now).1.filter (fun r => r.player_id == p.id) = [] ∧
    (detect_changes nd cd gw now).2.filter (fun r => r.player_id == p.id) = [] := by
  have hne : cd ≠ [] := find_some_ne_nil hfind
  refine ⟨?_, ?_⟩
  · rw [detect_changes_fst_filter nd cd gw now p hne hnd hp,
        diff_player_some cd gw now p c hfind]
    simp [hcost, hpts, hform]
  · rw [detect_changes_snd_filter nd cd gw now p hne hnd hp,
        diff_player_some cd gw now p c hfind]
    simp [hcost]

/-- C5 witness: previous and new snapshots agree on price, points and form
for id 1. -/
theorem claim_C5_witness :
    (detect_changes [(⟨1, "Saka", "MID", "ARS", 50, 10, some 2, 7, some 3⟩ : NewPlayer)]
        [(⟨1, 50, 10, some 3⟩ : CurrentPlayer)] (some 7) "t").1.filter
        (fun r => r.player_id == (1 : Int)) = [] ∧
    (detect_changes [(⟨1, "Saka", "MID", "ARS", 50, 10, some 2, 7, some 3⟩ : NewPlayer)]
        [(⟨1, 50, 10, some 3⟩ : CurrentPlayer)] (some 7) "t").2.filter
        (fun r => r.player_id == (1 : Int)) = [] :=
  claim_C5_identical_no_records
    [(⟨1, "Saka", "MID", "ARS", 50, 10, some 2, 7, some 3⟩ : NewPlayer)]
    [(⟨1, 50, 10, some 3⟩ : CurrentPlayer)] (some 7) "t"
    (⟨1, "Saka", "MID", "ARS", 50, 10, some 2, 7, some 3⟩ : NewPlayer)
    (⟨1, 50, 10, some 3⟩ : CurrentPlayer)
    (by simp) (List.mem_singleton.mpr rfl) rfl rfl rfl rfl

/-- C2: for an entity present in both snapshots, a `form_change` change
record (carrying the new, null-coerced form) is emitted exactly when the
absolute form delta strictly exceeds the fixed `0.1` threshold. -/
theorem claim_C2_form_threshold (nd : List NewPlayer) (cd : List CurrentPlayer)
    (gw : Option Int) (now : String) (p : NewPlayer) (c : CurrentPlayer)
    (hnd : (nd.map NewPlayer.id).Nodup) (hp : p ∈ nd)
    (hfind : cd.find? (fun cur => cur.id == p.id) = some c) :
    ChangeRecord.form_change p.id gw p.web_name (p.form.getD 0) now
        ∈ (detect_changes nd cd gw now).1 ↔
      |c.form.getD 0 - p.form.getD 0| > 1/10 := by
  have hne : cd ≠ [] := find_some_ne_nil hfind
  have hfilter := detect_changes_fst_filter nd cd gw now p hne hnd hp
  by_cases hcond : |c.form.getD 0 - p.form.getD 0| > 1/10
  · simp only [hcond, iff_true]
    have hmem : ChangeRecord.form_change p.id gw p.web_name (p.form.getD 0) now
        ∈ (diff_player cd gw now p).1 := by
      rw [diff_player_some cd gw now p c hfind]
      refine List.mem_append_right _ ?_
      rw [if_pos hcond]
      exact List.mem_singleton.mpr rfl
    rw [← hfilter] at hmem
    exact List.mem_of_mem_filter hmem
  · simp only [hcond, iff_false]
    intro hm
    have hmem : ChangeRecord.form_change p.id gw p.web_name (p.form.getD 0) now
        ∈ (diff_player cd gw now p).1 := by
      rw [← hfilter]
      exact List.mem_filter.mpr ⟨hm, by simp [ChangeRecord.player_id]⟩
    rw [diff_player_some cd gw now p c hfind] at hmem
    dsimp only at hmem
    split_ifs at hmem <;> simp_all [ChangeRecord.player_id]

/-- C2 witness: with previous form `3` a new form of `3.2` emits the record
and a new form of `3.1` (delta exactly `0.1`) does not. -/
theorem claim_C2_witness :
    (ChangeRecord.form_change 1 (some 7) "Saka" ((16 : ℚ)/5) "t" ∈
      (detect_changes [(⟨1, "Saka", "MID", "ARS", 50, 10, some 2, 7, some (16/5)⟩ : NewPlayer)]
        [(⟨1, 50, 10, some 3⟩ : CurrentPlayer)] (some 7) "t").1) ∧
    ¬ (ChangeRecord.form_change 1 (some 7) "Saka" ((31 : ℚ)/10) "t" ∈
      (detect_changes [(⟨1, "Saka", "MID", "ARS", 50, 10, some 2, 7, some (31/10)⟩ : NewPlayer)]
        [(⟨1, 50, 10, some 3⟩ : CurrentPlayer)] (some 7) "t").1) := by
  constructor
  · exact (claim_C2_form_threshold
      [(⟨1, "Saka", "MID", "ARS", 50, 10, some 2, 7, some (16/5)⟩ : NewPlayer)]
      [(⟨1, 50, 10, some 3⟩ : CurrentPlayer)] (some 7) "t"
      (⟨1, "Saka", "MID", "ARS", 50, 10, some 2, 7, some (16/5)⟩ : NewPlayer)
      (⟨1, 50, 10, some 3⟩ : CurrentPlayer)
      (by simp) (List.mem_singleton.mpr rfl) rfl).mpr (by simp [abs]; norm_num)
  · intro hm
    have := (claim_C2_form_threshold
      [(⟨1, "Saka", "MID", "ARS", 50, 10, some 2, 7, some (31/10)⟩ : NewPlayer)]
      [(⟨1, 50, 10, some 3⟩ : CurrentPlayer)] (some 7) "t"
      (⟨1, "Saka", "MID", "ARS", 50, 10, some 2, 7, some (31/10)⟩ : NewPlayer)
      (⟨1, 50, 10, some 3⟩ : CurrentPlayer)
      (by simp) (List.mem_singleton.mpr rfl) rfl).mp hm
    rw [show ((some (3:ℚ)).getD 0 - (some ((31:ℚ)/10)).getD 0) = -(1/10) by norm_num] at this
    simp [abs] at this

/-- C3: for an entity present in both snapshots whose minor-unit price
changed, the run emits exactly one detailed price-change record (old, new and
delta in major units, i.e. divided by 10) and exactly one `price_change`
change record for that entity. -/
theorem claim_C3_price_change (nd : List NewPlayer) (cd : List CurrentPlayer)
    (gw : Option Int) (now : String) (p : NewPlayer) (c : CurrentPlayer)
    (hnd : (nd.map NewPlayer.id).Nodup) (hp : p ∈ nd)
    (hfind : cd.find? (fun cur => cur.id == p.id) = some c)
    (hdiff : c.now_cost ≠ p.now_cost) :
    (detect_changes nd cd gw now).2.filter (fun r => r.player_id == p.id) =
      [⟨p.id, (c.now_cost : ℚ) / 10, (p.now_cost : ℚ) / 10,
         ((p.now_cost : ℚ) - (c.now_cost : ℚ)) / 10,
         p.selected_by_percent, gw, now⟩] ∧
    (detect_changes nd cd gw now).1.filter
        (fun r => r.player_id == p.id && r.change_type == "price_change") =
      [ChangeRecord.price_change p.id gw p.web_name p.now_cost now] := by
  have hne : cd ≠ [] := find_some_ne_nil hfind
  refine ⟨?_, ?_⟩
  · rw [detect_changes_snd_filter nd cd gw now p hne hnd hp,
        diff_player_some cd gw now p c hfind]
    dsimp only
    rw [if_pos hdiff]
  · have hsplit : (detect_changes nd cd gw now).1.filter
        (fun r => r.player_id == p.id && r.change_type == "price_change") =
      ((detect_changes nd cd gw now).1.filter
          (fun r => r.player_id == p.id)).filter
        (fun r => r.change_type == "price_change") := by
      rw [List.filter_filter]
      refine List.filter_congr ?_
      intro r _
      rw [Bool.and_comm]
    rw [hsplit, detect_changes_fst_filter nd cd gw now p hne hnd hp,
        diff_player_some cd gw now p c hfind]
    dsimp only
    rw [if_pos hdiff]
    split_ifs <;> simp [ChangeRecord.change_type]

/-- C3 witness: the spec's example — previous
`[{id: 1, price: 50, score: 10, form: 3.0}]`, new
`[{id: 1, price: 55, score: 10, form: 3.0}]` — yields one price-change record
with old `5.0`, new `5.5`, delta `0.5`, and one `price_change` change
record. -/
theorem claim_C3_witness :
    (detect_changes [(⟨1, "Saka", "MID", "ARS", 55, 10, some 2, 7, some 3⟩ : NewPlayer)]
        [(⟨1, 50, 10, some 3⟩ : CurrentPlayer)] (some 7) "t").2.filter
        (fun r => r.player_id == (1 : Int)) =
      [⟨1, 5, 11/2, 1/2, 7, some 7, "t"⟩] ∧
    (detect_changes [(⟨1, "Saka", "MID", "ARS", 55, 10, some 2, 7, some 3⟩ : NewPlayer)]
        [(⟨1, 50, 10, some 3⟩ : CurrentPlayer)] (some 7) "t").1.filter
        (fun r => r.player_id == (1 : Int) && r.change_type == "price_change") =
      [ChangeRecord.price_change 1 (some 7) "Saka" 55 "t"] := by
  have h := claim_C3_price_change
    [(⟨1, "Saka", "MID", "ARS", 55, 10, some 2, 7, some 3⟩ : NewPlayer)]
    [(⟨1, 50, 10, some 3⟩ : CurrentPlayer)] (some 7) "t"
    (⟨1, "Saka", "MID", "ARS", 55, 10, some 2, 7, some 3⟩ : NewPlayer)
    (⟨1, 50, 10, some 3⟩ : CurrentPlayer)
    (by simp) (List.mem_singleton.mpr rfl) rfl (by decide)
  refine ⟨?_, h.2⟩
  rw [h.1]
  norm_num

lemma diff_player_change_types (cd : List CurrentPlayer) (gw : Option Int)
    (now : String) (p : NewPlayer) :
    ((diff_player cd gw now p).1.map ChangeRecord.change_type).Sublist
      ["new_player", "price_change", "points_update", "form_change"] := by
  cases hfind : cd.find? (fun c => c.id == p.id) with
  | none =>
      rw [diff_player_none cd gw now p hfind]
      simp only [List.map_cons, List.map_nil, ChangeRecord.change_type]
      decide
  | some c =>
      rw [diff_player_some cd gw now p c hfind]
      dsimp only
      split_ifs <;>
        simp only [List.map_append, List.map_cons, List.map_nil,
          ChangeRecord.change_type, List.nil_append, List.append_nil] <;>
        decide

lemma diff_player_fst_length (cd : List CurrentPlayer) (gw : Option Int)
    (now : String) (p : NewPlayer) :
    (diff_player cd gw now p).1.length ≤ 3 := by
  cases hfind : cd.find? (fun c => c.id == p.id) with
  | none => rw [diff_player_none cd gw now p hfind]; simp
  | some c =>
      rw [diff_player_some cd gw now p c hfind]
      dsimp only
      split_ifs <;> simp

lemma diff_player_snd_length (cd : List CurrentPlayer) (gw : Option Int)
    (now : String) (p : NewPlayer) :
    (diff_player cd gw now p).2.length ≤ 1 := by
  cases hfind : cd.find? (fun c => c.id == p.id) with
  | none => rw [diff_player_none cd gw now p hfind]; simp
  | some c =>
      rw [diff_player_some cd gw now p c hfind]
      dsimp only
      split_ifs <;> simp

/-- C6: with a non-empty previous snapshot, the change-record list is the
concatenation, in new-snapshot order, of each entity's loop-body records;
each entity's change types appear in the fixed order
price → score → form (a sublist of the closed kind list); one entity
contributes at most three change records and at most one price-change record;
and across the run each (entity, kind) pair yields at most one change
record. -/
theorem claim_C6_ordering (nd : List NewPlayer) (cd : List CurrentPlayer)
    (gw : Option Int) (now : String) (hne : cd ≠ [])
    (hnd : (nd.map NewPlayer.id).Nodup) :
    (detect_changes nd cd gw now).1 =
      nd.flatMap (fun p => (diff_player cd gw now p).1) ∧
    (detect_changes nd cd gw now).2 =
      nd.flatMap (fun p => (diff_player cd gw now p).2) ∧
    (∀ p : NewPlayer,
      ((diff_player cd gw now p).1.map ChangeRecord.change_type).Sublist
        ["new_player", "price_change", "points_update", "form_change"] ∧
      (diff_player cd gw now p).1.length ≤ 3 ∧
      (diff_player cd gw now p).2.length ≤ 1) ∧
    (∀ p ∈ nd, ∀ k : String,
      (detect_changes nd cd gw now).1.countP
          (fun r => r.change_type == k && r.player_id == p.id) ≤ 1) := by
  refine ⟨detect_changes_fst_eq nd cd gw now hne,
    detect_changes_snd_eq nd cd gw now hne,
    fun p => ⟨diff_player_change_types cd gw now p,
      diff_player_fst_length cd gw now p, diff_player_snd_length cd gw now p⟩,
    ?_⟩
  intro p hp k
  have h1 : (detect_changes nd cd gw now).1.countP
      (fun r => r.change_type == k && r.player_id == p.id) =
      ((detect_changes nd cd gw now).1.filter
        (fun r => r.player_id == p.id)).countP
        (fun r => r.change_type == k) :=
    (List.countP_filter _ _ _).symm
  rw [h1, detect_changes_fst_filter nd cd gw now p hne hnd hp]
  have hsub := diff_player_change_types cd gw now p
  have hnodup : ((diff_player cd gw now p).1.map ChangeRecord.change_type).Nodup :=
    List.Nodup.sublist hsub (by decide)
  have h2 : ((diff_player cd gw now p).1.map ChangeRecord.change_type).countP
      (fun x => x == k) =
      (diff_player cd gw now p).1.countP (fun r => r.change_type == k) :=
    List.countP_map _ _ _
  have h3 : ((diff_player cd gw now p).1.map ChangeRecord.change_type).count k ≤ 1 :=
    List.nodup_iff_count_le_one.mp hnodup k
  rw [List.count] at h3
  omega

/-- C6 witness: a concrete two-entity run, giving the order decomposition and
the at-most-one-record-per-kind bound. -/
theorem claim_C6_witness :
    (detect_changes
        [(⟨1, "Saka", "MID", "ARS", 55, 12, some 2, 7, some (33/10)⟩ : NewPlayer),
         (⟨2, "Rice", "MID", "ARS", 60, 20, some 3, 9, some 4⟩ : NewPlayer)]
        [(⟨1, 50, 10, some 3⟩ : CurrentPlayer)] (some 7) "t").1 =
      [(⟨1, "Saka", "MID", "ARS", 55, 12, some 2, 7, some (33/10)⟩ : NewPlayer),
       (⟨2, "Rice", "MID", "ARS", 60, 20, some 3, 9, some 4⟩ : NewPlayer)].flatMap
        (fun p => (diff_player [(⟨1, 50, 10, some 3⟩ : CurrentPlayer)]
          (some 7) "t" p).1) ∧
    (detect_changes
        [(⟨1, "Saka", "MID", "ARS", 55, 12, some 2, 7, some (33/10)⟩ : NewPlayer),
         (⟨2, "Rice", "MID", "ARS", 60, 20, some 3, 9, some 4⟩ : NewPlayer)]
        [(⟨1, 50, 10, some 3⟩ : CurrentPlayer)] (some 7) "t").1.countP
        (fun r => r.change_type == "price_change" && r.player_id == 1) ≤ 1 := by
  have h := claim_C6_ordering
    [(⟨1, "Saka", "MID", "ARS", 55, 12, some 2, 7, some (33/10)⟩ : NewPlayer),
     (⟨2, "Rice", "MID", "ARS", 60, 20, some 3, 9, some 4⟩ : NewPlayer)]
    [(⟨1, 50, 10, some 3⟩ : CurrentPlayer)] (some 7) "t"
    (List.cons_ne_nil _ _) (by simp)
  exact ⟨h.1, h.2.2.2
    (⟨1, "Saka", "MID", "ARS", 55, 12, some 2, 7, some (33/10)⟩ : NewPlayer)
    (by simp) "price_change"⟩

/-- A change dict with its `recorded_at` timestamp field blanked. -/
def stripChangeTime : ChangeRecord → ChangeRecord
  | .new_player a b c d e f g h i j _ => .new_player a b c d e f g h i j ""
  | .price_change a b c d _ => .price_change a b c d ""
  | .points_update a b c d _ => .points_update a b c d ""
  | .form_change a b c d _ => .form_change a b c d ""

/-- A price-change dict with its `change_date` timestamp field blanked. -/
def stripPriceTime (r : PriceChangeRecord) : PriceChangeRecord :=
  { r with change_date := "" }

lemma diff_player_strip (cd : List CurrentPlayer) (gw : Option Int)
    (t₁ t₂ : String) (p : NewPlayer) :
    (diff_player cd gw t₁ p).1.map stripChangeTime =
      (diff_player cd gw t₂ p).1.map stripChangeTime ∧
    (diff_player cd gw t₁ p).2.map stripPriceTime =
      (diff_player cd gw t₂ p).2.map stripPriceTime := by
  cases hfind : cd.find? (fun c => c.id == p.id) with
  | none =>
      rw [diff_player_none cd gw t₁ p hfind, diff_player_none cd gw t₂ p hfind]
      exact ⟨rfl, rfl⟩
  | some c =>
      rw [diff_player_some cd gw t₁ p c hfind,
          diff_player_some cd gw t₂ p c hfind]
      dsimp only
      refine ⟨?_, ?_⟩ <;> split_ifs <;> rfl

lemma strip_flatMap_fst (cd : List CurrentPlayer) (gw : Option Int)
    (t₁ t₂ : String) :
    ∀ nd : List NewPlayer,
      (nd.flatMap (fun p => (diff_player cd gw t₁ p).1)).map stripChangeTime =
      (nd.flatMap (fun p => (diff_player cd gw t₂ p).1)).map stripChangeTime := by
  intro nd
  induction nd with
  | nil => rfl
  | cons a tl ih =>
      simp only [List.flatMap_cons, List.map_append, ih,
        (diff_player_strip cd gw t₁ t₂ a).1]

lemma strip_flatMap_snd (cd : List CurrentPlayer) (gw : Option Int)
    (t₁ t₂ : String) :
    ∀ nd : List NewPlayer,
      (nd.flatMap (fun p => (diff_player cd gw t₁ p).2)).map stripPriceTime =
      (nd.flatMap (fun p => (diff_player cd gw t₂ p).2)).map stripPriceTime := by
  intro nd
  induction nd with
  | nil => rfl
  | cons a tl ih =>
      simp only [List.flatMap_cons, List.map_append, ih,
        (diff_player_strip cd gw t₁ t₂ a).2]

/-- C9: the differ is deterministic in its snapshot and run-identifier
inputs — two runs on the same (previous, new, gameweek) triple produce the
same change records and the same price-change records, up to the recorded
timestamp fields (`recorded_at` / `change_date`), whatever timestamps the
clock hands each run. -/
theorem claim_C9_deterministic (nd : List NewPlayer) (cd : List CurrentPlayer)
    (gw : Option Int) (t₁ t₂ : String) :
    (detect_changes nd cd gw t₁).1.map stripChangeTime =
      (detect_changes nd cd gw t₂).1.map stripChangeTime ∧
    (detect_changes nd cd gw t₁).2.map stripPriceTime =
      (detect_changes nd cd gw t₂).2.map stripPriceTime := by
  by_cases hcd : cd = []
  · subst hcd; exact ⟨rfl, rfl⟩
  · refine ⟨?_, ?_⟩
    · rw [detect_changes_fst_eq nd cd gw t₁ hcd,
          detect_changes_fst_eq nd cd gw t₂ hcd]
      exact strip_flatMap_fst cd gw t₁ t₂ nd
    · rw [detect_changes_snd_eq nd cd gw t₁ hcd,
          detect_changes_snd_eq nd cd gw t₂ hcd]
      exact strip_flatMap_snd cd gw t₁ t₂ nd

lemma isEmpty_false {α : Type} {l : List α} (h : l ≠ []) : l.isEmpty = false := by
  cases l with
  | nil => exact absurd rfl h
  | cons a tl => rfl

/-- C8: `store_changes` skips the backend insert for an empty list entirely,
returns the total stored count over both tables when the issued inserts
succeed, and propagates (does not swallow) any backend failure. -/
theorem claim_C8_store_changes (env : Env) (changes : List ChangeRecord)
    (price_changes : List PriceChangeRecord) :
    (changes = [] → ∀ l, BackendCall.insertHistory l ∉
        (store_changes env changes price_changes).2) ∧
    (price_changes = [] → ∀ l, BackendCall.insertPrices l ∉
        (store_changes env changes price_changes).2) ∧
    (∀ m n, env.historyInsert = .ok m → env.priceInsert = .ok n →
      (store_changes env changes price_changes).1 =
        .ok ((if changes.isEmpty then 0 else m) +
             (if price_changes.isEmpty then 0 else n))) ∧
    (∀ e, changes ≠ [] → env.historyInsert = .error e →
      (store_changes env changes price_changes).1 = .error e) ∧
    (∀ e, price_changes ≠ [] →
      (changes = [] ∨ ∃ m, env.historyInsert = .ok m) →
      env.priceInsert = .error e →
      (store_changes env changes price_changes).1 = .error e) := by
  refine ⟨?_, ?_, ?_, ?_, ?_⟩
  · rintro rfl l
    by_cases hp2 : price_changes.isEmpty
    · simp [store_changes, hp2]
    · cases hpe : env.priceInsert <;> simp [store_changes, hp2, hpe]
  · rintro rfl l
    by_cases hc2 : changes.isEmpty
    · simp [store_changes, hc2]
    · cases hhe : env.historyInsert <;> simp [store_changes, hc2, hhe]
  · intro m n hm hn
    by_cases hc2 : changes.isEmpty <;> by_cases hp2 : price_changes.isEmpty <;>
      simp [store_changes, hc2, hp2, hm, hn]
  · intro e hc he
    rw [store_changes, isEmpty_false hc, he]
    rfl
  · intro e hpne hh hpe
    rcases hh with rfl | ⟨m, hm⟩
    · simp [store_changes, isEmpty_false hpne, hpe]
    · simp [store_changes, isEmpty_false hpne, hpe, hm]
      split <;> rfl

/-- C8 witness: a concrete call with an empty `changes` list — the history
insert is skipped and the price insert's count is returned. -/
theorem claim_C8_witness :
    (store_changes
        ⟨.ok [1], .ok ([], none), .ok [], .ok 5, .ok 2, .ok 3, .ok (), "t"⟩
        [] [⟨1, 5, 11/2, 1/2, 7, some 7, "t"⟩]).1 = .ok 2 ∧
    BackendCall.insertHistory [] ∉
      (store_changes
        ⟨.ok [1], .ok ([], none), .ok [], .ok 5, .ok 2, .ok 3, .ok (), "t"⟩
        [] [⟨1, 5, 11/2, 1/2, 7, some 7, "t"⟩]).2 := by
  have h := claim_C8_store_changes
    ⟨.ok [1], .ok ([], none), .ok [], .ok 5, .ok 2, .ok 3, .ok (), "t"⟩
    [] [⟨1, 5, 11/2, 1/2, 7, some 7, "t"⟩]
  refine ⟨?_, h.1 rfl []⟩
  have h3 := h.2.2.1 5 2 rfl rfl
  simpa using h3

/-- C7: any error raised in a run's failing step — the fetch, the
change-record persist (`store_changes`), or the snapshot upsert
(`update_current_data`); the diff step is a pure computation in the model
and cannot raise — reaches the single top-level handler, which records a
`failed` audit completion carrying the stringified error (via the one
completion mutation, performed here for a run whose truthy audit id is `i`
and whose completion write goes through) and re-raises the error to the
caller. -/
theorem claim_C7_error_propagation (env : Env) (e : String) (i : Int)
    (hstart : start_id env = some i) (hi : i ≠ 0)
    (hcomp : env.completeResult = .ok ()) :
    (env.fetchResult = .error e →
      (run_update env).1 = .error e ∧
      (run_update env).2 = [⟨i, "failed", 0, 0, some e⟩]) ∧
    (∀ nd gw,
      env.fetchResult = .ok (nd, gw) →
      (store_changes env
          (detect_changes nd (get_current_database_data env) gw env.now).1
          (detect_changes nd (get_current_database_data env) gw env.now).2).1 =
        .error e →
      (run_update env).1 = .error e ∧
      (run_update env).2 = [⟨i, "failed", 0, 0, some e⟩]) ∧
    (∀ nd gw cs,
      env.fetchResult = .ok (nd, gw) →
      (store_changes env
          (detect_changes nd (get_current_database_data env) gw env.now).1
          (detect_changes nd (get_current_database_data env) gw env.now).2).1 =
        .ok cs →
      env.upsertResult = .error e →
      (run_update env).1 = .error e ∧
      (run_update env).2 = [⟨i, "failed", 0, 0, some e⟩]) := by
  refine ⟨?_, ?_, ?_⟩
  · intro hfetch
    refine ⟨?_, ?_⟩ <;>
      simp [run_update, hfetch, log_update_complete, hstart, hi, hcomp]
  · intro nd gw hfetch hstore
    refine ⟨?_, ?_⟩ <;>
      simp [run_update, hfetch, hstore, log_update_complete, hstart, hi, hcomp]
  · intro nd gw cs hfetch hstore hup
    refine ⟨?_, ?_⟩ <;>
      simp [run_update, hfetch, hstore, hup, log_update_complete, hstart, hi,
        hcomp]

/-- C7 witness: three concrete runs, one per failing step — a fetch raising
`"boom"`, a change-record insert raising `"insert failed"` (price 50 → 55
makes the store non-empty), and a snapshot upsert raising `"upsert failed"` —
each ends with a `failed` audit write holding a non-empty error and the
error re-raised. -/
theorem claim_C7_witness :
    ((run_update ⟨.ok [1], .error "boom", .ok [], .ok 0, .ok 0, .ok 0, .ok (), "t"⟩).1 =
      .error "boom" ∧
     (run_update ⟨.ok [1], .error "boom", .ok [], .ok 0, .ok 0, .ok 0, .ok (), "t"⟩).2 =
      [⟨1, "failed", 0, 0, some "boom"⟩]) ∧
    ((run_update ⟨.ok [1],
        .ok ([(⟨1, "Saka", "MID", "ARS", 55, 10, some 2, 7, some 3⟩ : NewPlayer)], some 7),
        .ok [(⟨1, 50, 10, some 3⟩ : CurrentPlayer)],
        .error "insert failed", .ok 0, .ok 0, .ok (), "t"⟩).1 =
      .error "insert failed" ∧
     (run_update ⟨.ok [1],
        .ok ([(⟨1, "Saka", "MID", "ARS", 55, 10, some 2, 7, some 3⟩ : NewPlayer)], some 7),
        .ok [(⟨1, 50, 10, some 3⟩ : CurrentPlayer)],
        .error "insert failed", .ok 0, .ok 0, .ok (), "t"⟩).2 =
      [⟨1, "failed", 0, 0, some "insert failed"⟩]) ∧
    ((run_update ⟨.ok [1],
        .ok ([(⟨1, "Saka", "MID", "ARS", 50, 10, some 2, 7, some 3⟩ : NewPlayer)], some 7),
        .ok [], .ok 0, .ok 0, .error "upsert failed", .ok (), "t"⟩).1 =
      .error "upsert failed" ∧
     (run_update ⟨.ok [1],
        .ok ([(⟨1, "Saka", "MID", "ARS", 50, 10, some 2, 7, some 3⟩ : NewPlayer)], some 7),
        .ok [], .ok 0, .ok 0, .error "upsert failed", .ok (), "t"⟩).2 =
      [⟨1, "failed", 0, 0, some "upsert failed"⟩]) := by
  have hA := (claim_C7_error_propagation
    ⟨.ok [1], .error "boom", .ok [], .ok 0, .ok 0, .ok 0, .ok (), "t"⟩
    "boom" 1 rfl (by decide) rfl).1 rfl
  have hdiff : diff_player [(⟨1, 50, 10, some 3⟩ : CurrentPlayer)] (some 7) "t"
      (⟨1, "Saka", "MID", "ARS", 55, 10, some 2, 7, some 3⟩ : NewPlayer) =
      ([ChangeRecord.price_change 1 (some 7) "Saka" 55 "t"],
       [⟨1, ((50 : Int) : ℚ) / 10, ((55 : Int) : ℚ) / 10,
          (((55 : Int) : ℚ) - ((50 : Int) : ℚ)) / 10, 7, some 7, "t"⟩]) := by
    rw [diff_player_some [(⟨1, 50, 10, some 3⟩ : CurrentPlayer)] (some 7) "t"
      (⟨1, "Saka", "MID", "ARS", 55, 10, some 2, 7, some 3⟩ : NewPlayer)
      (⟨1, 50, 10, some 3⟩ : CurrentPlayer) rfl]
    rw [if_pos (by decide), if_neg (by decide),
        if_neg (by rw [show ((some (3:ℚ)).getD 0 - (some (3:ℚ)).getD 0) = 0
          from by norm_num]; simp),
        if_pos (by decide)]
    rfl
  have hdp : detect_changes
      [(⟨1, "Saka", "MID", "ARS", 55, 10, some 2, 7, some 3⟩ : NewPlayer)]
      [(⟨1, 50, 10, some 3⟩ : CurrentPlayer)] (some 7) "t" =
      ([ChangeRecord.price_change 1 (some 7) "Saka" 55 "t"],
       [⟨1, ((50 : Int) : ℚ) / 10, ((55 : Int) : ℚ) / 10,
          (((55 : Int) : ℚ) - ((50 : Int) : ℚ)) / 10, 7, some 7, "t"⟩]) := by
    unfold detect_changes
    rw [if_neg (by simp)]
    simp only [List.foldl_cons, List.foldl_nil, hdiff]
    rfl
  have hB := (claim_C7_error_propagation
    ⟨.ok [1],
      .ok ([(⟨1, "Saka", "MID", "ARS", 55, 10, some 2, 7, some 3⟩ : NewPlayer)], some 7),
      .ok [(⟨1, 50, 10, some 3⟩ : CurrentPlayer)],
      .error "insert failed", .ok 0, .ok 0, .ok (), "t"⟩
    "insert failed" 1 rfl (by decide) rfl).2.1
    [(⟨1, "Saka", "MID", "ARS", 55, 10, some 2, 7, some 3⟩ : NewPlayer)]
    (some 7) rfl
    (by rw [show get_current_database_data
        ⟨.ok [1],
          .ok ([(⟨1, "Saka", "MID", "ARS", 55, 10, some 2, 7, some 3⟩ : NewPlayer)], some 7),
          .ok [(⟨1, 50, 10, some 3⟩ : CurrentPlayer)],
          .error "insert failed", .ok 0, .ok 0, .ok (), "t"⟩ =
        [(⟨1, 50, 10, some 3⟩ : CurrentPlayer)] from rfl, hdp]; rfl)
  have hC := (claim_C7_error_propagation
    ⟨.ok [1],
      .ok ([(⟨1, "Saka", "MID", "ARS", 50, 10, some 2, 7, some 3⟩ : NewPlayer)], some 7),
      .ok [], .ok 0, .ok 0, .error "upsert failed", .ok (), "t"⟩
    "upsert failed" 1 rfl (by decide) rfl).2.2
    [(⟨1, "Saka", "MID", "ARS", 50, 10, some 2, 7, some 3⟩ : NewPlayer)]
    (some 7) 0 rfl rfl rfl
  exact ⟨hA, hB, hC⟩

/-- C10: a backend failure while reading the previous snapshot is swallowed
into an empty previous snapshot, so the differ emits no records and — with
the remaining steps succeeding — the run completes with audit status
`success`; the read failure alone is never fatal to the run. -/
theorem claim_C10_read_failure_not_fatal (env : Env) (e : String)
    (nd : List NewPlayer) (gw : Option Int) (k : Nat) (i : Int)
    (hcur : env.currentResult = .error e)
    (hfetch : env.fetchResult = .ok (nd, gw))
    (hupsert : env.upsertResult = .ok k)
    (hstart : start_id env = some i) (hi : i ≠ 0)
    (hcomp : env.completeResult = .ok ()) :
    get_current_database_data env = [] ∧
    detect_changes nd [] gw env.now = ([], []) ∧
    (run_update env).1 = .ok (k, 0) ∧
    (run_update env).2 = [⟨i, "success", k, 0, none⟩] := by
  have hempty : get_current_database_data env = [] := by
    simp [get_current_database_data, hcur]
  refine ⟨hempty, rfl, ?_, ?_⟩ <;>
    simp [run_update, hfetch, hempty, hupsert, hstart, hi, hcomp,
      log_update_complete, store_changes, detect_changes]

/-- C10 witness: a concrete run whose snapshot read raises `"down"` still
completes with status `success` and zero changes. -/
theorem claim_C10_witness :
    (run_update ⟨.ok [1],
        .ok ([(⟨1, "Saka", "MID", "ARS", 50, 10, some 2, 7, some 3⟩ : NewPlayer)], some 7),
        .error "down", .ok 0, .ok 0, .ok 1, .ok (), "t"⟩).1 = .ok (1, 0) ∧
    (run_update ⟨.ok [1],
        .ok ([(⟨1, "Saka", "MID", "ARS", 50, 10, some 2, 7, some 3⟩ : NewPlayer)], some 7),
        .error "down", .ok 0, .ok 0, .ok 1, .ok (), "t"⟩).2 =
      [⟨1, "success", 1, 0, none⟩] := by
  have h := claim_C10_read_failure_not_fatal
    ⟨.ok [1],
      .ok ([(⟨1, "Saka", "MID", "ARS", 50, 10, some 2, 7, some 3⟩ : NewPlayer)], some 7),
      .error "down", .ok 0, .ok 0, .ok 1, .ok (), "t"⟩
    "down" [(⟨1, "Saka", "MID", "ARS", 50, 10, some 2, 7, some 3⟩ : NewPlayer)]
    (some 7) 1 1 rfl rfl rfl rfl (by decide) rfl
  exact ⟨h.2.2.1, h.2.2.2⟩
